import Mathlib

/-!
Shallow embedding of the WhatsApp dental-bot webhook service (src/main.py)
and proofs about its session store, identity extraction, history window,
prompt construction and webhook orchestration.

Conventions of the embedding:
* Python dicts with a fixed key set become structures.
* The SQLAlchemy `conversations` table (primary key `phone_number`) becomes
  an association list `Store`; primary-key uniqueness is enforced by the
  operations that insert rows.
* Wall-clock timestamps (`datetime.now()` / `datetime.utcnow()`) become
  explicit `now` parameters.
* Outcomes of the external collaborators (DeepSeek LLM call, Twilio send,
  database commit availability) become parameters of the webhook function,
  and the calls the webhook makes are recorded in an effect trace.
* A Python exception caught by the webhook's catch-all `except` becomes the
  `.error "Internal server error"` response.
-/

namespace DentalBot

/-! ## Data model -/

/-- One history entry, as appended by `update_conversation`:
`{"user": ..., "assistant": ..., "timestamp": ...}`. -/
structure Turn where
  user : String
  assistant : String
  timestamp : String
deriving DecidableEq, Repr

/-- The `user_data` JSON dict, created by `get_or_create_conversation` as
`{"name": None, "first_seen": ...}`.  `name = none` models the key being
present with Python `None`. -/
structure UserData where
  name : Option String
  first_seen : String
deriving DecidableEq, Repr

/-- One row of the `conversations` table (key column `phone_number` is kept
as the association-list key outside this structure). -/
structure Conversation where
  user_data : UserData
  history : List Turn
  created_at : String
  updated_at : String
deriving DecidableEq, Repr

/-- The `conversations` table: rows keyed by `phone_number`. -/
abbrev Store := List (String × Conversation)

/-- `db.query(Conversation).filter(Conversation.phone_number == k).first()`. -/
def lookupStore (k : String) : Store → Option Conversation
  | [] => none
  | (k', c) :: rest => if k' = k then some c else lookupStore k rest

/-- Overwrite the row with key `k` (used by `update_conversation`, which
mutates an existing ORM row and commits). -/
def setStore (k : String) (c : Conversation) : Store → Store
  | [] => [(k, c)]
  | (k', c') :: rest => if k' = k then (k', c) :: rest else (k', c') :: setStore k c rest

/-- Number of persisted rows whose key is `k`. -/
def countRows (k : String) (st : Store) : Nat :=
  (st.filter fun p => p.1 = k).length

/-! ## History window -/

/-- Python list slice `l[-n:]`: the at-most-`n` last elements. -/
def takeLast (n : Nat) (l : List α) : List α := l.drop (l.length - n)

/-- The history-window step of `update_conversation`:
`history.append(turn); conv.history = history[-20:]`. -/
def appendTurn (history : List Turn) (t : Turn) : List Turn :=
  takeLast 20 (history ++ [t])

/-! ## Identity extraction (the name-detection block of `whatsapp_webhook`) -/

/-- The character class `[A-Za-záéíóúÁÉÍÓÚ]` of the name patterns. -/
def isNameChar (c : Char) : Bool :=
  (('A' ≤ c && c ≤ 'Z') || ('a' ≤ c && c ≤ 'z')) ||
  (c == 'á' || c == 'é' || c == 'í' || c == 'ó' || c == 'ú' ||
   c == 'Á' || c == 'É' || c == 'Í' || c == 'Ó' || c == 'Ú')

/-- Case-insensitive match of an (already lowercase, ASCII) literal pattern
against a prefix of the text, as `re.IGNORECASE` does for the literal part
of each name pattern. -/
def litMatchesAt : List Char → List Char → Bool
  | [], _ => true
  | _ :: _, [] => false
  | p :: ps, c :: cs => p == c.toLower && litMatchesAt ps cs

/-- `re.search(lit + "([A-Za-záéíóúÁÉÍÓÚ]+)", msg, re.IGNORECASE)`, returning
the capture group: at the leftmost position where the literal matches and is
followed by at least one class character, capture the maximal run of class
characters. -/
def searchCapture (pat : List Char) : List Char → Option (List Char)
  | [] => none
  | c :: rest =>
    if litMatchesAt pat (c :: rest) then
      let nm := ((c :: rest).drop pat.length).takeWhile isNameChar
      if nm.isEmpty then searchCapture pat rest else some nm
    else searchCapture pat rest

/-- The literal parts of `name_patterns`, in source order. -/
def name_patterns : List String :=
  ["me llamo ", "mi nombre es ", "soy ", "llamo "]

/-- The name-detection loop: try each pattern in order, keep the first
capture. -/
def extractName (msg : String) : Option String :=
  name_patterns.findSome? fun p =>
    (searchCapture p.toList msg.toList).map fun nm => String.mk nm

/-! ## Python string helpers -/

/-- ASCII whitespace, the characters removed by Python `str.strip()`. -/
def isPySpace (c : Char) : Bool :=
  c == ' ' || c == '\t' || c == '\n' || c == '\r' || c == '\x0b' || c == '\x0c'

/-- Python `str.strip()`: remove leading and trailing whitespace. -/
def strip (s : String) : String :=
  String.mk (((s.toList.dropWhile isPySpace).reverse.dropWhile isPySpace).reverse)

/-- Python truthiness of `user_data.get("name")`: `None` and `""` are falsy. -/
def truthyName : Option String → Bool
  | none => false
  | some s => !(s == "")

/-- The name-detection step of the webhook: extraction runs only while
`not user_data.get("name")`; on a match the captured group is stored,
otherwise the current value is kept. -/
def resolveName (current : Option String) (msg : String) : Option String :=
  if truthyName current then current
  else
    match extractName msg with
    | some nm => some nm
    | none => current

/-! ## Prompt construction (the context-assembly block of `whatsapp_webhook`) -/

/-- Rendering of `user_data.get('name', 'No proporcionado')` inside the
f-string.  Rows created by this service always carry the `name` key, so
`.get` returns the stored value even when it is `None`, and the f-string
renders Python `None` as the text "None". -/
def renderName : Option String → String
  | none => "None"
  | some s => s

/-- The history-rendering loop: `for msg in history[-5:]: history_text += ...`. -/
def historyText (msgs : List Turn) : String :=
  msgs.foldl
    (fun acc m => acc ++ "Paciente: " ++ m.user ++ "\nAsistente: " ++ m.assistant ++ "\n")
    ""

/-- The f-string `system_prompt` template of the webhook. -/
def system_prompt (name : Option String) (from_number history_text : String) : String :=
  "Eres un asistente virtual para una clínica dental en México llamada \"Sonrisa Perfecta\".\n\nINFORMACIÓN DEL PACIENTE:\n- Nombre: " ++
  renderName name ++
  "\n- Teléfono: " ++
  from_number ++
  "\n\nHORARIOS DE ATENCIÓN:\n- Lunes a Viernes: 9:00 AM - 6:00 PM\n- Sábados: 9:00 AM - 2:00 PM\n- Domingos: Cerrado\n\nSERVICIOS:\n- Limpieza dental ($800 MXN)\n- Extracciones ($1,200 MXN)\n- Blanqueamiento ($2,500 MXN)\n- Consulta general ($500 MXN)\n\nHISTORIAL RECIENTE:\n" ++
  history_text ++
  "\n\nINSTRUCCIONES:\n- Usa el nombre del paciente si lo conoces\n- Mantén el contexto de la conversación\n- Sé amable y profesional en español de México\n- Ofrece horarios disponibles cuando pidan citas\n- Pregunta qué servicio necesitan\n- Si no sabes algo, ofrece tomar nota y que te contactarán"

/-- Prompt assembly: render the 5 most recent turns and fill the template. -/
def buildPrompt (ud : UserData) (from_number : String) (history : List Turn) : String :=
  system_prompt ud.name from_number (historyText (takeLast 5 history))

/-! ## Session store operations -/

/-- `update_conversation(phone_number, user_data, new_message, new_response)`:
re-reads the row, overwrites `user_data` when one is supplied (truthy),
appends the new turn through the 20-entry window when both message strings
are truthy, and commits.  The SQLAlchemy `onupdate` hook refreshes
`updated_at` exactly when some attribute was assigned.  When no row exists
for the key, nothing is modified and the empty commit succeeds. -/
def update_conversation (now : String) (phone_number : String)
    (user_data : Option UserData) (new_message new_response : Option String)
    (st : Store) : Store :=
  match lookupStore phone_number st with
  | none => st
  | some conv =>
    let conv1 := match user_data with
      | some ud => { conv with user_data := ud }
      | none => conv
    let doAppend := match new_message, new_response with
      | some m, some r => !(m == "") && !(r == "")
      | _, _ => false
    let conv2 := match new_message, new_response with
      | some m, some r =>
        if !(m == "") && !(r == "") then
          { conv1 with history := appendTurn conv1.history ⟨m, r, now⟩ }
        else conv1
      | _, _ => conv1
    if user_data.isSome || doAppend then
      setStore phone_number { conv2 with updated_at := now } st
    else st

/-- A fresh row as built by `get_or_create_conversation`:
`user_data = {"name": None, "first_seen": now}` and empty history. -/
def newConversation (now : String) : Conversation :=
  { user_data := { name := none, first_seen := now }, history := [],
    created_at := now, updated_at := now }

/-- `get_or_create_conversation(phone_number)`: return the existing row, or
insert and commit a fresh one (sequential semantics, as seen by a single
request; the interleaved semantics is modelled separately below). -/
def get_or_create_conversation (now phone_number : String) (st : Store) :
    Conversation × Store :=
  match lookupStore phone_number st with
  | some conv => (conv, st)
  | none =>
    let conv := newConversation now
    (conv, (phone_number, conv) :: st)

/-! ## Webhook orchestration -/

/-- The form-encoded POST payload; `none` models a missing field. -/
structure Form where
  Body : Option String
  From : Option String
deriving DecidableEq, Repr

/-- Outcome of the DeepSeek chat-completion call: generated text, or any
provider failure (timeout, rate limit, malformed response), which surfaces
as a raised exception. -/
inductive LLMResult
  | ok (text : String)
  | fail
deriving DecidableEq, Repr

/-- Outcome of the Twilio `messages.create` call. -/
inductive SendResult
  | ok (sid : String)
  | fail
deriving DecidableEq, Repr

/-- Per-request environment: collaborator outcomes and the clock. -/
structure Env where
  llm : LLMResult
  commitOk : Bool
  send : SendResult
  now : String

/-- Externally visible calls made while handling one request. -/
inductive Effect
  | storeRead (key : String)
  | storeCreate (key : String)
  | storeWrite (key : String)
  | llmCall (system_instruction user_message : String)
  | sendMessage (dest body : String)
deriving DecidableEq, Repr

/-- Is this effect an outbound message to the sender? -/
def Effect.isSend : Effect → Bool
  | .sendMessage _ _ => true
  | _ => false

/-- JSON response of the webhook: `{"status": "ok", "message_sid": ...}` or
`{"status": "error", "message": ...}`. -/
inductive WebhookResponse
  | ok (message_sid : String)
  | error (message : String)
deriving DecidableEq, Repr

/-- The store effects of `get_or_create_conversation`: always a read, plus
an insert when the row was absent. -/
def readEffects (phone_number : String) (st : Store) : List Effect :=
  .storeRead phone_number ::
    (match lookupStore phone_number st with
     | some _ => []
     | none => [.storeCreate phone_number])

/-- `whatsapp_webhook`: validate, load/create the session, detect the name,
build the prompt, call the provider, persist the turn, send the reply.  The
whole body sits in one `try`, so any raised exception (provider failure, or
the `StorageError` re-raised by `update_conversation` when its commit
fails) reaches the catch-all and becomes the error response — the
statements after the raising call never run. -/
def whatsapp_webhook (form : Form) (env : Env) (st : Store) :
    WebhookResponse × Store × List Effect :=
  let user_message := strip (form.Body.getD "")
  let from_number := form.From.getD ""
  if user_message = "" ∨ from_number = "" then
    (.error "Invalid request", st, [])
  else
    let gc := get_or_create_conversation env.now from_number st
    let conversation := gc.1
    let st1 := gc.2
    let effs0 := readEffects from_number st
    let user_data : UserData :=
      { conversation.user_data with
          name := resolveName conversation.user_data.name user_message }
    let history := conversation.history
    let p := buildPrompt user_data from_number history
    match env.llm with
    | .fail => (.error "Internal server error", st1, effs0 ++ [.llmCall p user_message])
    | .ok ai_response =>
      let effs1 := effs0 ++ [.llmCall p user_message, .storeWrite from_number]
      if env.commitOk then
        let st2 := update_conversation env.now from_number (some user_data)
          (some user_message) (some ai_response) st1
        match env.send with
        | .fail =>
          (.error "Internal server error", st2,
            effs1 ++ [.sendMessage from_number ai_response])
        | .ok sid =>
          (.ok sid, st2, effs1 ++ [.sendMessage from_number ai_response])
      else
        (.error "Internal server error", st1, effs1)

/-! ## Interleaved get-or-create (concurrency model for two in-flight
requests with the same key)

`get_or_create_conversation` is a non-atomic check-then-insert: the query
and the insert-commit are separate store operations.  A thread is `start`
before its query, `pending` between a miss and its commit, `done` when it
returned a row, `raised` when its commit hit the primary-key constraint
(IntegrityError, re-raised after rollback). -/

/-- Progress of one `get_or_create_conversation` invocation. -/
inductive ThreadState
  | start
  | pending (conv : Conversation)
  | done (conv : Conversation)
  | raised
deriving DecidableEq, Repr

/-- Has the invocation returned or raised? -/
def ThreadState.finished : ThreadState → Bool
  | .done _ => true
  | .raised => true
  | _ => false

/-- Shared store plus the two in-flight invocations. -/
structure Config where
  store : Store
  t1 : ThreadState
  t2 : ThreadState
deriving DecidableEq, Repr

/-- One atomic store operation of one invocation: the query, or the
insert-commit (which the primary key rejects when a row appeared in
between). -/
def stepThread (key : String) (seed : Conversation) (st : Store) :
    ThreadState → ThreadState × Store
  | .start =>
    match lookupStore key st with
    | some conv => (.done conv, st)
    | none => (.pending seed, st)
  | .pending conv =>
    match lookupStore key st with
    | some _ => (.raised, st)
    | none => (.done conv, (key, conv) :: st)
  | .done c => (.done c, st)
  | .raised => (.raised, st)

/-- Run a schedule: `true` steps the first invocation, `false` the second.
Each invocation builds its own fresh row (`seed1`/`seed2`, with its own
`datetime.now()` timestamps). -/
def runSchedule (key : String) (seed1 seed2 : Conversation) :
    List Bool → Config → Config
  | [], cfg => cfg
  | b :: rest, cfg =>
    if b then
      let r := stepThread key seed1 cfg.store cfg.t1
      runSchedule key seed1 seed2 rest { store := r.2, t1 := r.1, t2 := cfg.t2 }
    else
      let r := stepThread key seed2 cfg.store cfg.t2
      runSchedule key seed1 seed2 rest { store := r.2, t1 := cfg.t1, t2 := r.1 }

/-- Store part of the interleaving invariant: at most one row for `key`. -/
def StoreOk (key : String) (st : Store) : Prop :=
  match lookupStore key st with
  | none => countRows key st = 0
  | some _ => countRows key st = 1

/-- Thread part of the interleaving invariant: an invocation can only have
finished once a row exists, and a normal return observed that row. -/
def ThreadOk (key : String) (st : Store) (t : ThreadState) : Prop :=
  match lookupStore key st with
  | none => t.finished = false
  | some c => ∀ d, t = .done d → d = c

/-- The whole interleaving invariant. -/
def GoodConfig (key : String) (cfg : Config) : Prop :=
  StoreOk key cfg.store ∧ ThreadOk key cfg.store cfg.t1 ∧ ThreadOk key cfg.store cfg.t2

/-- Seeds for the concrete race: each request builds its row with its own
timestamps. -/
def seedA : Conversation := newConversation "t1"

/-- Second request's fresh row. -/
def seedB : Conversation := newConversation "t2"

/-! ## Helper lemmas -/

theorem length_takeLast (n : Nat) (l : List α) :
    (takeLast n l).length = min n l.length := by
  simp [takeLast]
  omega

theorem lookup_setStore_self (k : String) (c : Conversation) (st : Store) :
    lookupStore k (setStore k c st) = some c := by
  induction st with
  | nil => simp [setStore, lookupStore]
  | cons p rest ih =>
    obtain ⟨k', c'⟩ := p
    by_cases h : k' = k
    · simp [setStore, lookupStore, h]
    · simp [setStore, lookupStore, h, ih]

theorem lookup_cons_self (k : String) (c : Conversation) (st : Store) :
    lookupStore k ((k, c) :: st) = some c := by
  simp [lookupStore]

theorem countRows_cons_self (k : String) (c : Conversation) (st : Store) :
    countRows k ((k, c) :: st) = countRows k st + 1 := by
  simp [countRows, List.filter]

theorem readEffects_no_send (k : String) (st : Store) :
    (readEffects k st).all (fun e => !e.isSend) = true := by
  cases h : lookupStore k st <;> simp [readEffects, h, Effect.isSend]

theorem get_or_create_found (now k : String) (st : Store) (conv : Conversation)
    (h : lookupStore k st = some conv) :
    get_or_create_conversation now k st = (conv, st) := by
  simp [get_or_create_conversation, h]

theorem resolveName_known (s : String) (hs : s ≠ "") (msg : String) :
    resolveName (some s) msg = some s := by
  simp [resolveName, truthyName, hs]

theorem update_conversation_some_eq (now k : String) (ud : UserData)
    (m r : String) (st : Store) (conv : Conversation)
    (h : lookupStore k st = some conv) :
    update_conversation now k (some ud) (some m) (some r) st =
      setStore k
        { user_data := ud,
          history := if (!(m == "") && !(r == "")) = true
            then appendTurn conv.history ⟨m, r, now⟩ else conv.history,
          created_at := conv.created_at,
          updated_at := now } st := by
  by_cases hmr : (!(m == "") && !(r == "")) = true <;>
    simp [update_conversation, h, hmr]

/-! ## History window (C4) -/

/-- **C4.** Appending a turn to a history longer than 20 yields exactly the
19 most recent old entries followed by the new turn, in order; in general the
result keeps at most 20 entries, truncated from the front (a suffix of the
appended list). -/
theorem appendTurn_window (H : List Turn) (t : Turn) (hH : H.length > 20) :
    appendTurn H t = H.drop (H.length - 19) ++ [t] ∧
    (appendTurn H t).length = 20 ∧
    (∀ H' : List Turn, ∀ t' : Turn,
      (appendTurn H' t').length = min (H'.length + 1) 20 ∧
      (appendTurn H' t').IsSuffix (H' ++ [t'])) := by
  refine ⟨?_, ?_, ?_⟩
  · have hlen : (H ++ [t]).length - 20 = H.length - 19 := by
      simp only [List.length_append, List.length_cons, List.length_nil]
      omega
    have hle : H.length - 19 ≤ H.length := by omega
    simp only [appendTurn, takeLast, hlen]
    rw [List.drop_append_of_le_length hle]
  · have : (appendTurn H t).length = min 20 (H ++ [t]).length := by
      simpa [appendTurn] using length_takeLast 20 (H ++ [t])
    simp at this
    omega
  · intro H' t'
    constructor
    · have : (appendTurn H' t').length = min 20 (H' ++ [t']).length := by
        simpa [appendTurn] using length_takeLast 20 (H' ++ [t'])
      simp at this
      omega
    · exact List.drop_suffix _ _

/-- Witness for C4 at a concrete 21-entry history. -/
theorem appendTurn_window_witness :
    appendTurn (List.replicate 21 ⟨"u", "a", "s"⟩) ⟨"m", "r", "s2"⟩ =
      List.replicate 19 ⟨"u", "a", "s"⟩ ++ [⟨"m", "r", "s2"⟩] ∧
    (appendTurn (List.replicate 21 ⟨"u", "a", "s"⟩) ⟨"m", "r", "s2"⟩).length = 20 := by
  have h := appendTurn_window (List.replicate 21 ⟨"u", "a", "s"⟩) ⟨"m", "r", "s2"⟩
    (by simp)
  refine ⟨?_, h.2.1⟩
  rw [h.1]
  decide

/-! ## Identity extraction (C10) -/

/-- Structure of any successful capture: nonempty, made of class characters
only, and a maximal run (`takeWhile` of some suffix of the message). -/
theorem searchCapture_shape (pat msg nm : List Char)
    (h : searchCapture pat msg = some nm) :
    nm ≠ [] ∧ nm.all isNameChar ∧
      ∃ l : List Char, l.IsSuffix msg ∧ nm = l.takeWhile isNameChar := by
  induction msg with
  | nil => simp [searchCapture] at h
  | cons c rest ih =>
    rw [searchCapture] at h
    by_cases hlit : litMatchesAt pat (c :: rest)
    · simp only [hlit, if_true] at h
      by_cases hemp : (((c :: rest).drop pat.length).takeWhile isNameChar).isEmpty
      · simp only [hemp, if_true] at h
        obtain ⟨hne, hall, l, hsuf, heq⟩ := ih h
        exact ⟨hne, hall, l, hsuf.trans (List.suffix_cons c rest), heq⟩
      · rw [if_neg hemp] at h
        have h' : ((c :: rest).drop pat.length).takeWhile isNameChar = nm :=
          Option.some.inj h
        refine ⟨?_, ?_, (c :: rest).drop pat.length, List.drop_suffix _ _, h'.symm⟩
        · intro hnil
          rw [h', hnil] at hemp
          simp at hemp
        · rw [← h']
          exact List.all_eq_true.mpr fun a ha => List.mem_takeWhile_imp ha
    · simp only [hlit, if_false] at h
      obtain ⟨hne, hall, l, hsuf, heq⟩ := ih h
      exact ⟨hne, hall, l, hsuf.trans (List.suffix_cons c rest), heq⟩

/-- **C10.** Every captured name is a single maximal run of class letters
(so a multi-word introduction stores only the first word: "me llamo Ana
María" yields "Ana"), and the first pattern in the fixed priority order
decides the capture ("soy Luis y me llamo Carlos" yields "Carlos", from the
higher-priority "me llamo", not "Luis" from "soy"). -/
theorem extractName_single_word (pat msg nm : List Char)
    (h : searchCapture pat msg = some nm) :
    (nm ≠ [] ∧ nm.all isNameChar ∧
      ∃ l : List Char, l.IsSuffix msg ∧ nm = l.takeWhile isNameChar) ∧
    extractName "Hola, me llamo Ana María" = some "Ana" ∧
    extractName "soy Luis y me llamo Carlos" = some "Carlos" := by
  refine ⟨searchCapture_shape pat msg nm h, ?_, ?_⟩ <;> decide

/-- Witness for C10: the general part instantiated at "me llamo Ana María". -/
theorem extractName_single_word_witness :
    ("Ana".toList ≠ [] ∧ "Ana".toList.all isNameChar ∧
      ∃ l : List Char, l.IsSuffix "me llamo Ana María".toList ∧
        "Ana".toList = l.takeWhile isNameChar) ∧
    extractName "Hola, me llamo Ana María" = some "Ana" ∧
    extractName "soy Luis y me llamo Carlos" = some "Carlos" :=
  extractName_single_word "me llamo ".toList "me llamo Ana María".toList
    "Ana".toList (by decide)

/-! ## Prompt construction (C7) -/

/-- **C7.** Prompt construction is a pure function of the rendered session
fields: two sessions agreeing on name and history yield byte-identical
prompts for the same sender key (the embedding is a Lean function, so no
session state is mutated), and an empty history renders an empty history
block. -/
theorem buildPrompt_deterministic (ud1 ud2 : UserData) (k : String)
    (h1 h2 : List Turn) (hn : ud1.name = ud2.name) (hh : h1 = h2) :
    buildPrompt ud1 k h1 = buildPrompt ud2 k h2 ∧
    historyText (takeLast 5 []) = "" := by
  constructor
  · simp [buildPrompt, hn, hh]
  · rfl

/-- Witness for C7: identical name and history but different `first_seen`
timestamps still produce the same prompt. -/
theorem buildPrompt_deterministic_witness :
    buildPrompt ⟨some "Ana", "t1"⟩ "+521000" [] =
      buildPrompt ⟨some "Ana", "t2"⟩ "+521000" [] ∧
    historyText (takeLast 5 []) = "" :=
  buildPrompt_deterministic ⟨some "Ana", "t1"⟩ ⟨some "Ana", "t2"⟩ "+521000"
    [] [] rfl rfl

/-! ## Silent no-op update (C9) -/

/-- **C9.** For a key with no persisted row, `update_conversation` is a
silent no-op: the guard `if conv:` skips every mutation, the empty commit
raises nothing, and the store is unchanged. -/
theorem update_conversation_missing_row (now k : String) (ud : Option UserData)
    (m r : Option String) (st : Store) (h : lookupStore k st = none) :
    update_conversation now k ud m r st = st := by
  simp [update_conversation, h]

/-- Witness for C9 at a concrete store holding an unrelated row. -/
theorem update_conversation_missing_row_witness :
    update_conversation "t9" "+520000"
      (some ⟨some "Ana", "t0"⟩) (some "hola") (some "buenas")
      [("+529999", ⟨⟨none, "t0"⟩, [], "t0", "t0"⟩)] =
      [("+529999", ⟨⟨none, "t0"⟩, [], "t0", "t0"⟩)] :=
  update_conversation_missing_row "t9" "+520000"
    (some ⟨some "Ana", "t0"⟩) (some "hola") (some "buenas")
    [("+529999", ⟨⟨none, "t0"⟩, [], "t0", "t0"⟩)] (by decide)

/-! ## Payload validation (C6) -/

/-- **C6.** An inbound payload with an empty or missing body, or an empty or
missing sender key, is rejected immediately: error response, store
untouched, and an empty effect trace (no session creation, no store write,
no provider call, no send). -/
theorem webhook_rejects_invalid (form : Form) (env : Env) (st : Store)
    (h : form.Body = none ∨ form.Body = some "" ∨
         form.From = none ∨ form.From = some "") :
    whatsapp_webhook form env st = (.error "Invalid request", st, []) := by
  obtain h | h | h | h := h <;> simp [whatsapp_webhook, h, strip]

/-- Witness for C6 at a concrete payload with an empty body. -/
theorem webhook_rejects_invalid_witness :
    whatsapp_webhook ⟨some "", some "whatsapp:+5210003"⟩
      ⟨.ok "hola", true, .ok "SM0", "t0"⟩ [] =
      (.error "Invalid request", [], []) :=
  webhook_rejects_invalid ⟨some "", some "whatsapp:+5210003"⟩
    ⟨.ok "hola", true, .ok "SM0", "t0"⟩ [] (Or.inr (Or.inl rfl))

/-! ## Post-reply persistence failure (C1) -/

/-- Counterexample to C1 as stated: a request that obtained a generated
reply but whose persistence commit fails produces an error response and
sends nothing to the sender — the reply is not "still sent". -/
theorem webhook_write_failure_counterexample :
    ((whatsapp_webhook ⟨some "Hola doctor", some "whatsapp:+5210001"⟩
        ⟨.ok "Claro, con gusto", false, .ok "SM1", "t1"⟩ []).2.2.all
          fun e => !e.isSend) = true ∧
    (whatsapp_webhook ⟨some "Hola doctor", some "whatsapp:+5210001"⟩
        ⟨.ok "Claro, con gusto", false, .ok "SM1", "t1"⟩ []).1 =
      .error "Internal server error" := by
  decide

/-- **C1 (amended).** A `StorageError` during the post-reply persistence
step is logged but re-raised by `update_conversation`; the webhook's
catch-all turns it into the error response, so the already-generated reply
is NOT sent to the sender and the store keeps the state left by
`get_or_create_conversation` (no turn appended). -/
theorem webhook_write_failure_blocks_reply (form : Form) (env : Env)
    (st : Store) (reply : String)
    (hb : strip (form.Body.getD "") ≠ "") (hf : form.From.getD "" ≠ "")
    (hllm : env.llm = .ok reply) (hc : env.commitOk = false) :
    (whatsapp_webhook form env st).1 = .error "Internal server error" ∧
    ((whatsapp_webhook form env st).2.2.all fun e => !e.isSend) = true ∧
    (whatsapp_webhook form env st).2.1 =
      (get_or_create_conversation env.now (form.From.getD "") st).2 := by
  have hcond : ¬(strip (form.Body.getD "") = "" ∨ form.From.getD "" = "") := by
    simp [hb, hf]
  simp only [whatsapp_webhook, hllm, hc, hcond, if_false, Bool.false_eq_true]
  refine ⟨by trivial, ?_, by trivial⟩
  rw [List.all_append, readEffects_no_send]
  rfl

/-- Witness for C1 (amended) at a concrete request. -/
theorem webhook_write_failure_blocks_reply_witness :
    (whatsapp_webhook ⟨some "Buenos días", some "whatsapp:+5210011"⟩
        ⟨.ok "Hola", false, .ok "SM3", "t3"⟩ []).1 =
      .error "Internal server error" ∧
    ((whatsapp_webhook ⟨some "Buenos días", some "whatsapp:+5210011"⟩
        ⟨.ok "Hola", false, .ok "SM3", "t3"⟩ []).2.2.all
          fun e => !e.isSend) = true ∧
    (whatsapp_webhook ⟨some "Buenos días", some "whatsapp:+5210011"⟩
        ⟨.ok "Hola", false, .ok "SM3", "t3"⟩ []).2.1 =
      (get_or_create_conversation "t3" "whatsapp:+5210011" []).2 :=
  webhook_write_failure_blocks_reply ⟨some "Buenos días", some "whatsapp:+5210011"⟩
    ⟨.ok "Hola", false, .ok "SM3", "t3"⟩ [] "Hola"
    (by decide) (by decide) rfl rfl

/-! ## Provider failure (C2) -/

/-- Counterexample to C2 as stated: when the provider call fails, the
webhook returns the error response without attempting any message send —
there is no best-effort apology reply in the code. -/
theorem webhook_provider_failure_counterexample :
    ((whatsapp_webhook ⟨some "Hola", some "whatsapp:+5210002"⟩
        ⟨.fail, true, .ok "SM2", "t2"⟩ []).2.2.all fun e => !e.isSend) = true ∧
    (whatsapp_webhook ⟨some "Hola", some "whatsapp:+5210002"⟩
        ⟨.fail, true, .ok "SM2", "t2"⟩ []).1 = .error "Internal server error" := by
  decide

/-- **C2 (amended).** On provider failure the webhook reports an error
response and appends no new turn to the session history; but no apology or
fallback message is attempted — the exception goes straight to the
catch-all and nothing is sent to the sender. -/
theorem webhook_provider_failure (form : Form) (env : Env) (st : Store)
    (hb : strip (form.Body.getD "") ≠ "") (hf : form.From.getD "" ≠ "")
    (hllm : env.llm = .fail) :
    (whatsapp_webhook form env st).1 = .error "Internal server error" ∧
    ((whatsapp_webhook form env st).2.2.all fun e => !e.isSend) = true ∧
    (whatsapp_webhook form env st).2.1 =
      (get_or_create_conversation env.now (form.From.getD "") st).2 ∧
    (∀ conv, lookupStore (form.From.getD "") st = some conv →
      lookupStore (form.From.getD "") (whatsapp_webhook form env st).2.1 =
        some conv) := by
  have hcond : ¬(strip (form.Body.getD "") = "" ∨ form.From.getD "" = "") := by
    simp [hb, hf]
  simp only [whatsapp_webhook, hllm, hcond, if_false]
  refine ⟨by trivial, ?_, by trivial, ?_⟩
  · rw [List.all_append, readEffects_no_send]
    rfl
  · intro conv hconv
    rw [get_or_create_found env.now _ st conv hconv]
    exact hconv

/-- Witness for C2 (amended): provider timeout on a second message from a
known sender leaves that sender's history untouched. -/
theorem webhook_provider_failure_witness :
    (whatsapp_webhook ⟨some "Hola otra vez", some "whatsapp:+5210012"⟩
        ⟨.fail, true, .ok "SM4", "t4"⟩
        [("whatsapp:+5210012", ⟨⟨some "Ana", "t0"⟩, [], "t0", "t0"⟩)]).1 =
      .error "Internal server error" ∧
    ((whatsapp_webhook ⟨some "Hola otra vez", some "whatsapp:+5210012"⟩
        ⟨.fail, true, .ok "SM4", "t4"⟩
        [("whatsapp:+5210012", ⟨⟨some "Ana", "t0"⟩, [], "t0", "t0"⟩)]).2.2.all
          fun e => !e.isSend) = true ∧
    (whatsapp_webhook ⟨some "Hola otra vez", some "whatsapp:+5210012"⟩
        ⟨.fail, true, .ok "SM4", "t4"⟩
        [("whatsapp:+5210012", ⟨⟨some "Ana", "t0"⟩, [], "t0", "t0"⟩)]).2.1 =
      (get_or_create_conversation "t4" "whatsapp:+5210012"
        [("whatsapp:+5210012", ⟨⟨some "Ana", "t0"⟩, [], "t0", "t0"⟩)]).2 ∧
    (∀ conv,
      lookupStore "whatsapp:+5210012"
        [("whatsapp:+5210012", ⟨⟨some "Ana", "t0"⟩, [], "t0", "t0"⟩)] = some conv →
      lookupStore "whatsapp:+5210012"
        (whatsapp_webhook ⟨some "Hola otra vez", some "whatsapp:+5210012"⟩
          ⟨.fail, true, .ok "SM4", "t4"⟩
          [("whatsapp:+5210012", ⟨⟨some "Ana", "t0"⟩, [], "t0", "t0"⟩)]).2.1 =
        some conv) :=
  webhook_provider_failure ⟨some "Hola otra vez", some "whatsapp:+5210012"⟩
    ⟨.fail, true, .ok "SM4", "t4"⟩
    [("whatsapp:+5210012", ⟨⟨some "Ana", "t0"⟩, [], "t0", "t0"⟩)]
    (by decide) (by decide) rfl

/-! ## Trim asymmetry at the interface (C8) -/

/-- **C8.** `Body` is stripped before the emptiness check, so a
whitespace-only body is rejected with no side effect; `From` is not
stripped, so a whitespace-only sender key passes validation and the store
is read under that exact key. -/
theorem webhook_trim_asymmetry (form : Form) (env : Env) (st : Store)
    (env' : Env) (st' : Store) (body : String)
    (hb : strip (form.Body.getD "") = "") (hbody : strip body ≠ "") :
    whatsapp_webhook form env st = (.error "Invalid request", st, []) ∧
    ((whatsapp_webhook ⟨some body, some " "⟩ env' st').2.2).head? =
      some (.storeRead " ") := by
  constructor
  · simp [whatsapp_webhook, hb]
  · have hws : (" " : String) ≠ "" := by decide
    have hcond : ¬(strip body = "" ∨ (" " : String) = "") := by
      simp [hbody, hws]
    simp only [whatsapp_webhook, hcond, if_false]
    cases env'.llm <;> cases hc : env'.commitOk <;> cases env'.send <;>
      simp [readEffects, hc, hbody]

/-- Witness for C8: a whitespace-only body is rejected, and a
whitespace-only sender key reaches the store verbatim. -/
theorem webhook_trim_asymmetry_witness :
    whatsapp_webhook ⟨some "   ", some "whatsapp:+5210013"⟩
      ⟨.ok "x", true, .ok "SM5", "t5"⟩ [] = (.error "Invalid request", [], []) ∧
    ((whatsapp_webhook ⟨some "Hola", some " "⟩
        ⟨.ok "y", true, .ok "SM5b", "t5"⟩ []).2.2).head? =
      some (.storeRead " ") :=
  webhook_trim_asymmetry ⟨some "   ", some "whatsapp:+5210013"⟩
    ⟨.ok "x", true, .ok "SM5", "t5"⟩ [] ⟨.ok "y", true, .ok "SM5b", "t5"⟩ []
    "Hola" (by decide) (by decide)

/-! ## First-write-wins identity (C5) -/

/-- **C5.** First-write-wins identity: when the sender's session already
holds a nonempty name, processing any further inbound utterance — whatever
the provider, commit and send outcomes — leaves every persisted row for
that sender with that same name; extraction is skipped while the name is
known, so it is never changed or nulled out. -/
theorem webhook_name_first_write_wins (form : Form) (env : Env) (st : Store)
    (s : String) (conv conv' : Conversation)
    (hconv : lookupStore (form.From.getD "") st = some conv)
    (hname : conv.user_data.name = some s) (hs : s ≠ "")
    (hconv' : lookupStore (form.From.getD "")
        (whatsapp_webhook form env st).2.1 = some conv') :
    conv'.user_data.name = some s := by
  by_cases hval : strip (form.Body.getD "") = "" ∨ form.From.getD "" = ""
  · simp only [whatsapp_webhook, hval, if_true] at hconv'
    rw [hconv] at hconv'
    injection hconv' with h
    rw [← h]
    exact hname
  · simp only [whatsapp_webhook, hval, if_false] at hconv'
    simp only [get_or_create_found env.now (form.From.getD "") st conv hconv]
      at hconv'
    cases hllm : env.llm with
    | fail =>
      simp only [hllm] at hconv'
      rw [hconv] at hconv'
      injection hconv' with h
      rw [← h]
      exact hname
    | ok reply =>
      simp only [hllm] at hconv'
      cases hc : env.commitOk with
      | false =>
        simp only [hc, Bool.false_eq_true, if_false] at hconv'
        rw [hconv] at hconv'
        injection hconv' with h
        rw [← h]
        exact hname
      | true =>
        simp only [hc, if_true] at hconv'
        rw [update_conversation_some_eq env.now (form.From.getD "") _ _ _ st
          conv hconv] at hconv'
        cases hsend : env.send
        all_goals
          simp only [hsend] at hconv'
          rw [lookup_setStore_self] at hconv'
          injection hconv' with h
          rw [← h]
          simp only [hname]
          exact resolveName_known s hs _

/-- Witness for C5: a later "soy Marta" message does not change the known
name "Ana", even on the fully successful path that persists a new turn. -/
theorem webhook_name_first_write_wins_witness :
    (⟨⟨some "Ana", "t0"⟩, [⟨"soy Marta", "OK", "t6"⟩], "t0", "t6"⟩ :
        Conversation).user_data.name = some "Ana" :=
  webhook_name_first_write_wins ⟨some "soy Marta", some "whatsapp:+5210014"⟩
    ⟨.ok "OK", true, .ok "SM6", "t6"⟩
    [("whatsapp:+5210014", ⟨⟨some "Ana", "t0"⟩, [], "t0", "t0"⟩)]
    "Ana" ⟨⟨some "Ana", "t0"⟩, [], "t0", "t0"⟩
    ⟨⟨some "Ana", "t0"⟩, [⟨"soy Marta", "OK", "t6"⟩], "t0", "t6"⟩
    (by decide) rfl (by decide) (by decide)

/-! ## Concurrent get-or-create (C3) -/

theorem stepThread_preserves (key : String) (seed : Conversation) (st : Store)
    (t other : ThreadState) (hst : StoreOk key st) (ht : ThreadOk key st t)
    (hother : ThreadOk key st other) :
    StoreOk key (stepThread key seed st t).2 ∧
    ThreadOk key (stepThread key seed st t).2 (stepThread key seed st t).1 ∧
    ThreadOk key (stepThread key seed st t).2 other := by
  cases t with
  | start =>
    cases hlk : lookupStore key st with
    | some c =>
      simp only [stepThread, hlk]
      refine ⟨hst, ?_, hother⟩
      simp only [ThreadOk, hlk]
      intro d hd
      injection hd with h
      exact h.symm
    | none =>
      simp only [stepThread, hlk]
      refine ⟨hst, ?_, hother⟩
      simp [ThreadOk, hlk, ThreadState.finished]
  | pending conv =>
    cases hlk : lookupStore key st with
    | some c =>
      simp only [stepThread, hlk]
      refine ⟨hst, ?_, hother⟩
      simp only [ThreadOk, hlk]
      intro d hd
      exact ThreadState.noConfusion hd
    | none =>
      simp only [stepThread, hlk]
      refine ⟨?_, ?_, ?_⟩
      · simp only [StoreOk, lookup_cons_self, countRows_cons_self]
        have h0 : countRows key st = 0 := by
          simpa [StoreOk, hlk] using hst
        omega
      · simp only [ThreadOk, lookup_cons_self]
        intro d hd
        injection hd with h
        exact h.symm
      · simp only [ThreadOk, lookup_cons_self]
        intro d hd
        have hfin : other.finished = false := by
          simpa [ThreadOk, hlk] using hother
        rw [hd] at hfin
        simp [ThreadState.finished] at hfin
  | done c =>
    simp only [stepThread]
    exact ⟨hst, ht, hother⟩
  | raised =>
    simp only [stepThread]
    exact ⟨hst, ht, hother⟩

theorem runSchedule_preserves (key : String) (seed1 seed2 : Conversation)
    (sched : List Bool) (cfg : Config) (h : GoodConfig key cfg) :
    GoodConfig key (runSchedule key seed1 seed2 sched cfg) := by
  induction sched generalizing cfg with
  | nil => simpa [runSchedule] using h
  | cons b rest ih =>
    obtain ⟨hst, h1, h2⟩ := h
    cases b
    · have hstep := stepThread_preserves key seed2 cfg.store cfg.t2 cfg.t1
        hst h2 h1
      simp only [runSchedule, Bool.false_eq_true, if_false]
      exact ih _ ⟨hstep.1, hstep.2.2, hstep.2.1⟩
    · have hstep := stepThread_preserves key seed1 cfg.store cfg.t1 cfg.t2
        hst h1 h2
      simp only [runSchedule, if_true]
      exact ih _ ⟨hstep.1, hstep.2.1, hstep.2.2⟩

/-- **C3 (amended).** Interleaving two `get_or_create_conversation` calls
for the same key: after any schedule under which both calls finished,
exactly one row for the key is persisted, and every call that returned
normally observed exactly that persisted row (hence its identity seed).
The check-then-insert is not atomic, however: a call can finish by raising
`IntegrityError` instead of returning (see the race counterexample), so it
is not the case that both calls always observe the resulting seed. -/
theorem get_or_create_concurrent (key : String) (seed1 seed2 : Conversation)
    (st0 : Store) (sched : List Bool)
    (h0 : lookupStore key st0 = none) (hc0 : countRows key st0 = 0)
    (hfin1 : (runSchedule key seed1 seed2 sched
      ⟨st0, .start, .start⟩).t1.finished = true)
    (_hfin2 : (runSchedule key seed1 seed2 sched
      ⟨st0, .start, .start⟩).t2.finished = true) :
    ∃ c, lookupStore key (runSchedule key seed1 seed2 sched
        ⟨st0, .start, .start⟩).store = some c ∧
      countRows key (runSchedule key seed1 seed2 sched
        ⟨st0, .start, .start⟩).store = 1 ∧
      (∀ d, (runSchedule key seed1 seed2 sched
        ⟨st0, .start, .start⟩).t1 = .done d → d = c) ∧
      (∀ d, (runSchedule key seed1 seed2 sched
        ⟨st0, .start, .start⟩).t2 = .done d → d = c) := by
  have hgood : GoodConfig key ⟨st0, .start, .start⟩ := by
    refine ⟨?_, ?_, ?_⟩ <;>
      simp [StoreOk, ThreadOk, h0, hc0, ThreadState.finished]
  have hfinal := runSchedule_preserves key seed1 seed2 sched _ hgood
  obtain ⟨hst, h1, h2⟩ := hfinal
  cases hlk : lookupStore key (runSchedule key seed1 seed2 sched
      ⟨st0, .start, .start⟩).store with
  | none =>
    have hf : (runSchedule key seed1 seed2 sched
        ⟨st0, .start, .start⟩).t1.finished = false := by
      simpa [ThreadOk, hlk] using h1
    exact absurd (hfin1.symm.trans hf) (by decide)
  | some c =>
    refine ⟨c, rfl, ?_, ?_, ?_⟩
    · simpa [StoreOk, hlk] using hst
    · simpa [ThreadOk, hlk] using h1
    · simpa [ThreadOk, hlk] using h2

/-- Counterexample to C3 as stated: in the interleaving Q1 Q2 I1 I2 from an
empty store, both queries miss, the first insert commits, and the second
insert hits the primary key and raises — the second call never observes the
resulting identity seed (and the two seeds differ).  Exactly one row
remains. -/
theorem get_or_create_race_counterexample :
    (runSchedule "whatsapp:+5210015" seedA seedB [true, false, true, false]
        ⟨[], .start, .start⟩).t2 = .raised ∧
    (runSchedule "whatsapp:+5210015" seedA seedB [true, false, true, false]
        ⟨[], .start, .start⟩).t1 = .done seedA ∧
    seedA ≠ seedB ∧
    countRows "whatsapp:+5210015"
      (runSchedule "whatsapp:+5210015" seedA seedB [true, false, true, false]
        ⟨[], .start, .start⟩).store = 1 := by
  decide

/-- Witness for C3 (amended): schedule Q1 I1 Q2 — both calls finish
normally and both observe the first call's row. -/
theorem get_or_create_concurrent_witness :
    ∃ c, lookupStore "whatsapp:+5210016"
        (runSchedule "whatsapp:+5210016" seedA seedB [true, true, false]
          ⟨[], .start, .start⟩).store = some c ∧
      countRows "whatsapp:+5210016"
        (runSchedule "whatsapp:+5210016" seedA seedB [true, true, false]
          ⟨[], .start, .start⟩).store = 1 ∧
      (∀ d, (runSchedule "whatsapp:+5210016" seedA seedB [true, true, false]
        ⟨[], .start, .start⟩).t1 = .done d → d = c) ∧
      (∀ d, (runSchedule "whatsapp:+5210016" seedA seedB [true, true, false]
        ⟨[], .start, .start⟩).t2 = .done d → d = c) :=
  get_or_create_concurrent "whatsapp:+5210016" seedA seedB [] [true, true, false]
    (by decide) (by decide) (by decide) (by decide)

end DentalBot
